import Mathlib

/-!
# Verification of the repository search and ranking service

A shallow embedding, in Lean 4, of the core of a GitHub repository search
API: the popularity-scoring engine (`ScoringService` in
`src/services/scoring.service.ts`), the query-string builder and input
sanitizer (`GitHubService` in `src/services/github.service.ts`), and the
stable popularity sort.

Modelling conventions:
* ECMAScript `number` values are modelled as real numbers (`ℝ`).
* Timestamps are modelled by their epoch value in milliseconds, i.e. the
  result of `Date.prototype.getTime` on the corresponding `Date`; the
  service converts its ISO-string inputs to that value before any
  arithmetic, so the embedding carries the numeric value directly.
* `Math.round` rounds half toward positive infinity, which on reals is
  `⌊x + 1/2⌋`.
* `Array.prototype.sort` with a comparator `c` is required by ECMAScript
  to be a stable comparison sort; it is modelled by `List.insertionSort`
  (a stable sort) on the reflexive relation `c a b ≤ 0`.
-/

namespace RedcareGithub

/-- ECMAScript `Math.round`: rounds to the nearest integer, half toward
positive infinity. -/
noncomputable def jsRound (x : ℝ) : ℤ := ⌊x + 1 / 2⌋

/-- Scoring weights, from `config.scoring.weights` (`src/config/index.ts`). -/
structure ScoringWeights where
  stars : ℝ
  forks : ℝ
  recency : ℝ

/-- The default weights configured in `src/config/index.ts`:
stars `0.4`, forks `0.3`, recency `0.3`. -/
def defaultWeights : ScoringWeights := ⟨0.4, 0.3, 0.3⟩

/-- `config.scoring.recencyDecayDays`, hard-wired to `365` in
`src/config/index.ts`. -/
def recencyDecayDays : ℝ := 365

/-- A raw repository record as returned by the upstream search API
(`GitHubRepository` in `src/types/github.types.ts`).  `updated_at` is the
epoch-millisecond value of the record's last-update timestamp (see the
module conventions). -/
structure GitHubRepository where
  id : ℕ
  name : String
  full_name : String
  owner_login : String
  owner_avatar_url : String
  owner_type : String
  description : Option String
  html_url : String
  language : Option String
  created_at : String
  updated_at : ℝ
  stargazers_count : ℝ
  forks_count : ℝ
  open_issues_count : ℕ
  topics : List String

/-- `ScoringService.normalizeStars`: logarithmic normalization of the star
count against a reference ceiling of 100000 stars, capped at 1.0. -/
noncomputable def normalizeStars (stars : ℝ) : ℝ :=
  if stars ≤ 0 then 0
  else
    let maxStarsReference : ℝ := 100000
    let normalizedScore := Real.logb 10 (stars + 1) / Real.logb 10 (maxStarsReference + 1)
    min normalizedScore 1

/-- `ScoringService.normalizeForks`: logarithmic normalization of the fork
count against a reference ceiling of 10000 forks, capped at 1.0. -/
noncomputable def normalizeForks (forks : ℝ) : ℝ :=
  if forks ≤ 0 then 0
  else
    let maxForksReference : ℝ := 10000
    let normalizedScore := Real.logb 10 (forks + 1) / Real.logb 10 (maxForksReference + 1)
    min normalizedScore 1

/-- `ScoringService.calculateRecencyScore`: exponential decay of the time
since the last update.  `updatedAt` and `now` are epoch milliseconds;
`(now - updatedAt) / (1000*60*60*24)` is the fractional number of days
since the update. -/
noncomputable def calculateRecencyScore (updatedAt now : ℝ) : ℝ :=
  let daysSinceUpdate := (now - updatedAt) / (1000 * 60 * 60 * 24)
  let recencyScore := Real.exp (-daysSinceUpdate / recencyDecayDays)
  max recencyScore 0

/-- The weighted combination `score` computed inside
`ScoringService.calculatePopularityScore`, before scaling and rounding. -/
noncomputable def popularityRawScore (w : ScoringWeights) (repo : GitHubRepository)
    (now : ℝ) : ℝ :=
  normalizeStars repo.stargazers_count * w.stars +
    normalizeForks repo.forks_count * w.forks +
    calculateRecencyScore repo.updated_at now * w.recency

/-- `ScoringService.calculatePopularityScore`: the weighted combination
scaled to 0–10 and rounded to two decimal places
(`Math.round(score * 10 * 100) / 100`). -/
noncomputable def calculatePopularityScore (w : ScoringWeights) (repo : GitHubRepository)
    (now : ℝ) : ℝ :=
  (jsRound (popularityRawScore w repo now * 10 * 100) : ℝ) / 100

/-- Reference definition from the specification (§4.2):
`normalizeLog(count, ceiling)` is 0 for `count ≤ 0` and otherwise
`min(1, log10(count+1) / log10(ceiling+1))`. -/
noncomputable def normalizeLog (count ceiling : ℝ) : ℝ :=
  if count ≤ 0 then 0
  else min 1 (Real.logb 10 (count + 1) / Real.logb 10 (ceiling + 1))

/-- Reference definition from the specification (§4.2):
`exponentialDecay(daysSince, halfLifeParameterDays) = max(0, e^(-daysSince/halfLifeParameterDays))`. -/
noncomputable def exponentialDecay (daysSinceUpdate halfLifeParameterDays : ℝ) : ℝ :=
  max 0 (Real.exp (-daysSinceUpdate / halfLifeParameterDays))

/-- Reference definition from the specification (§4.2): the fractional-day
difference between `now` and the record's last-update instant, both in
epoch milliseconds (one day is 86400000 ms). -/
noncomputable def daysSince (updatedAt now : ℝ) : ℝ :=
  (now - updatedAt) / 86400000

/-! ## Basic facts about the scoring terms -/

theorem normalizeStars_eq_normalizeLog (stars : ℝ) :
    normalizeStars stars = normalizeLog stars 100000 := by
  unfold normalizeStars normalizeLog
  split
  · rfl
  · exact min_comm _ _

theorem normalizeForks_eq_normalizeLog (forks : ℝ) :
    normalizeForks forks = normalizeLog forks 10000 := by
  unfold normalizeForks normalizeLog
  split
  · rfl
  · exact min_comm _ _

theorem calculateRecencyScore_eq_exponentialDecay (updatedAt now : ℝ) :
    calculateRecencyScore updatedAt now =
      exponentialDecay (daysSince updatedAt now) recencyDecayDays := by
  unfold calculateRecencyScore exponentialDecay daysSince
  norm_num [max_comm]

theorem normalizeLog_nonneg (count ceiling : ℝ) (hceil : 0 ≤ ceiling) :
    0 ≤ normalizeLog count ceiling := by
  unfold normalizeLog
  split
  · exact le_refl 0
  · next h =>
    push_neg at h
    refine le_min zero_le_one (div_nonneg ?_ ?_)
    · exact Real.logb_nonneg (by norm_num) (by linarith)
    · exact Real.logb_nonneg (by norm_num) (by linarith)

theorem normalizeLog_le_one (count ceiling : ℝ) : normalizeLog count ceiling ≤ 1 := by
  unfold normalizeLog
  split
  · exact zero_le_one
  · exact min_le_left _ _

theorem normalizeLog_eq_zero_of_nonpos {count : ℝ} (ceiling : ℝ) (h : count ≤ 0) :
    normalizeLog count ceiling = 0 := by
  unfold normalizeLog
  rw [if_pos h]

theorem normalizeLog_mono (ceiling : ℝ) (hceil : 0 < ceiling) {a b : ℝ} (hab : a ≤ b) :
    normalizeLog a ceiling ≤ normalizeLog b ceiling := by
  rcases le_or_lt b 0 with hb | hb
  · rw [normalizeLog_eq_zero_of_nonpos ceiling (hab.trans hb),
      normalizeLog_eq_zero_of_nonpos ceiling hb]
  · rcases le_or_lt a 0 with ha | ha
    · rw [normalizeLog_eq_zero_of_nonpos ceiling ha]
      exact normalizeLog_nonneg b ceiling hceil.le
    · unfold normalizeLog
      rw [if_neg (not_le.mpr ha), if_neg (not_le.mpr hb)]
      refine min_le_min le_rfl ?_
      have hden : 0 < Real.logb 10 (ceiling + 1) :=
        Real.logb_pos (by norm_num) (by linarith)
      have hnum : Real.logb 10 (a + 1) ≤ Real.logb 10 (b + 1) :=
        Real.logb_le_logb_of_le (by norm_num) (by linarith) (by linarith)
      exact (div_le_div_iff_of_pos_right hden).mpr hnum

theorem calculateRecencyScore_nonneg (updatedAt now : ℝ) :
    0 ≤ calculateRecencyScore updatedAt now :=
  le_max_right _ _

theorem calculateRecencyScore_le_one {updatedAt now : ℝ} (h : updatedAt ≤ now) :
    calculateRecencyScore updatedAt now ≤ 1 := by
  unfold calculateRecencyScore recencyDecayDays
  refine max_le (Real.exp_le_one_iff.mpr ?_) zero_le_one
  have h1 : 0 ≤ (now - updatedAt) / (1000 * 60 * 60 * 24) :=
    div_nonneg (by linarith) (by norm_num)
  linarith

theorem calculateRecencyScore_strict_mono {t1 t2 : ℝ} (now : ℝ) (h : t1 < t2) :
    calculateRecencyScore t1 now < calculateRecencyScore t2 now := by
  unfold calculateRecencyScore recencyDecayDays
  rw [max_eq_left (Real.exp_pos _).le, max_eq_left (Real.exp_pos _).le]
  exact Real.exp_lt_exp.mpr (by linarith)

theorem jsRound_mono {x y : ℝ} (h : x ≤ y) : jsRound x ≤ jsRound y :=
  Int.floor_le_floor (by linarith)

theorem jsRound_nonneg {x : ℝ} (h : 0 ≤ x) : 0 ≤ jsRound x :=
  Int.le_floor.mpr (by push_cast; linarith)

theorem jsRound_le_of_le {x : ℝ} {n : ℤ} (h : x ≤ n) : jsRound x ≤ n := by
  have hlt : (x + 1 / 2 : ℝ) < ((n + 1 : ℤ) : ℝ) := by push_cast; linarith
  exact Int.lt_add_one_iff.mp (Int.floor_lt.mpr hlt)

theorem jsRound_ge {x : ℝ} {n : ℤ} (h : (n : ℝ) - 1 / 2 ≤ x) : n ≤ jsRound x :=
  Int.le_floor.mpr (by linarith)

theorem popularityRawScore_nonneg (repo : GitHubRepository) (now : ℝ) :
    0 ≤ popularityRawScore defaultWeights repo now := by
  unfold popularityRawScore defaultWeights
  have hs : 0 ≤ normalizeStars repo.stargazers_count := by
    rw [normalizeStars_eq_normalizeLog]
    exact normalizeLog_nonneg _ _ (by norm_num)
  have hf : 0 ≤ normalizeForks repo.forks_count := by
    rw [normalizeForks_eq_normalizeLog]
    exact normalizeLog_nonneg _ _ (by norm_num)
  have hr : 0 ≤ calculateRecencyScore repo.updated_at now :=
    calculateRecencyScore_nonneg _ _
  norm_num
  nlinarith

theorem popularityRawScore_le_one {repo : GitHubRepository} {now : ℝ}
    (h : repo.updated_at ≤ now) :
    popularityRawScore defaultWeights repo now ≤ 1 := by
  unfold popularityRawScore defaultWeights
  have hs1 : normalizeStars repo.stargazers_count ≤ 1 := by
    rw [normalizeStars_eq_normalizeLog]; exact normalizeLog_le_one _ _
  have hf1 : normalizeForks repo.forks_count ≤ 1 := by
    rw [normalizeForks_eq_normalizeLog]; exact normalizeLog_le_one _ _
  have hr1 : calculateRecencyScore repo.updated_at now ≤ 1 :=
    calculateRecencyScore_le_one h
  have hs : 0 ≤ normalizeStars repo.stargazers_count := by
    rw [normalizeStars_eq_normalizeLog]
    exact normalizeLog_nonneg _ _ (by norm_num)
  have hf : 0 ≤ normalizeForks repo.forks_count := by
    rw [normalizeForks_eq_normalizeLog]
    exact normalizeLog_nonneg _ _ (by norm_num)
  have hr : 0 ≤ calculateRecencyScore repo.updated_at now :=
    calculateRecencyScore_nonneg _ _
  norm_num
  nlinarith

theorem calcScore_le_of_raw_le {r1 r2 : GitHubRepository} {now : ℝ}
    (h : popularityRawScore defaultWeights r1 now ≤ popularityRawScore defaultWeights r2 now) :
    calculatePopularityScore defaultWeights r1 now ≤
      calculatePopularityScore defaultWeights r2 now := by
  unfold calculatePopularityScore
  have hj : jsRound (popularityRawScore defaultWeights r1 now * 10 * 100) ≤
      jsRound (popularityRawScore defaultWeights r2 now * 10 * 100) :=
    jsRound_mono (by nlinarith)
  have hc : ((jsRound (popularityRawScore defaultWeights r1 now * 10 * 100) : ℤ) : ℝ) ≤
      ((jsRound (popularityRawScore defaultWeights r2 now * 10 * 100) : ℤ) : ℝ) := by
    exact_mod_cast hj
  linarith

/-- A concrete repository record used as a base for concrete inputs:
zero stars, zero forks, last updated at the epoch. -/
def baseRepo : GitHubRepository :=
  { id := 1, name := "base", full_name := "octo/base", owner_login := "octo",
    owner_avatar_url := "", owner_type := "User", description := none, html_url := "",
    language := none, created_at := "1970-01-01T00:00:00Z", updated_at := 0,
    stargazers_count := 0, forks_count := 0, open_issues_count := 0, topics := [] }

theorem normalizeStars_zero : normalizeStars 0 = 0 := by
  unfold normalizeStars
  rw [if_pos le_rfl]

theorem normalizeForks_zero : normalizeForks 0 = 0 := by
  unfold normalizeForks
  rw [if_pos le_rfl]

/-- Closed form of the popularity score of a zero-star zero-fork record:
only the recency term contributes. -/
theorem score_of_zero_stars_forks (t now : ℝ) :
    calculatePopularityScore defaultWeights { baseRepo with updated_at := t } now =
      (jsRound (Real.exp (-((now - t) / 86400000) / 365) * 300) : ℝ) / 100 := by
  unfold calculatePopularityScore popularityRawScore defaultWeights calculateRecencyScore
    recencyDecayDays baseRepo
  rw [normalizeStars_zero, normalizeForks_zero, max_eq_left (Real.exp_pos _).le]
  congr 3
  norm_num
  ring

/-! ## C1: the score is within [0, 10] and has two decimal places -/

/-- **C1** (amended).  For a record with non-negative star and fork counts
and a `now` instant at or after the record's last update, the popularity
score lies in `[0, 10]` and is an integer multiple of `1/100`.  (For a
`now` strictly before the last-update timestamp the bound can fail; see
the counterexample.) -/
theorem calculatePopularityScore_bounds (repo : GitHubRepository) (now : ℝ)
    (hs : 0 ≤ repo.stargazers_count) (hf : 0 ≤ repo.forks_count)
    (hnow : repo.updated_at ≤ now) :
    0 ≤ calculatePopularityScore defaultWeights repo now ∧
      calculatePopularityScore defaultWeights repo now ≤ 10 ∧
      ∃ n : ℤ, calculatePopularityScore defaultWeights repo now * 100 = n := by
  have hraw0 := popularityRawScore_nonneg repo now
  have hraw1 := popularityRawScore_le_one hnow
  unfold calculatePopularityScore
  refine ⟨?_, ?_, ⟨jsRound (popularityRawScore defaultWeights repo now * 10 * 100), by
    field_simp⟩⟩
  · have h0 : (0 : ℤ) ≤ jsRound (popularityRawScore defaultWeights repo now * 10 * 100) :=
      jsRound_nonneg (by nlinarith)
    have hc : (0 : ℝ) ≤ (jsRound (popularityRawScore defaultWeights repo now * 10 * 100) : ℝ) := by
      exact_mod_cast h0
    linarith
  · have h1 : jsRound (popularityRawScore defaultWeights repo now * 10 * 100) ≤ (1000 : ℤ) :=
      jsRound_le_of_le (by push_cast; nlinarith)
    have : (jsRound (popularityRawScore defaultWeights repo now * 10 * 100) : ℝ) ≤ 1000 := by
      exact_mod_cast h1
    linarith

/-- Witness for C1 at a concrete input. -/
theorem calculatePopularityScore_bounds_witness :
    0 ≤ baseRepo.stargazers_count ∧ 0 ≤ baseRepo.forks_count ∧ baseRepo.updated_at ≤ 0 ∧
      (0 ≤ calculatePopularityScore defaultWeights baseRepo 0 ∧
        calculatePopularityScore defaultWeights baseRepo 0 ≤ 10 ∧
        ∃ n : ℤ, calculatePopularityScore defaultWeights baseRepo 0 * 100 = n) :=
  ⟨le_rfl, le_rfl, le_rfl, calculatePopularityScore_bounds baseRepo 0 le_rfl le_rfl le_rfl⟩

/-- **C1** counterexample: for a record whose last-update timestamp lies in
the future of the supplied `now` (here: updated 3650 days after `now`),
the score exceeds 10, so the claim as stated (for *every* `now`) fails. -/
theorem calculatePopularityScore_exceeds_ten :
    0 ≤ ({ baseRepo with updated_at := 315360000000 } : GitHubRepository).stargazers_count ∧
      0 ≤ ({ baseRepo with updated_at := 315360000000 } : GitHubRepository).forks_count ∧
      10 < calculatePopularityScore defaultWeights
        { baseRepo with updated_at := 315360000000 } 0 := by
  refine ⟨le_rfl, le_rfl, ?_⟩
  rw [score_of_zero_stars_forks]
  have harg : (-((0 - 315360000000) / 86400000) / 365 : ℝ) = 10 := by norm_num
  rw [harg]
  have hexp : (11 : ℝ) ≤ Real.exp 10 := by
    have := Real.add_one_le_exp (10 : ℝ)
    linarith
  have h1 : (1001 : ℤ) ≤ jsRound (Real.exp 10 * 300) := jsRound_ge (by push_cast; nlinarith)
  have h2 : (1001 : ℝ) ≤ (jsRound (Real.exp 10 * 300) : ℝ) := by exact_mod_cast h1
  rw [lt_div_iff₀ (by norm_num : (0:ℝ) < 100)]
  linarith

/-! ## C2: update recency and the score -/

theorem jsRound_exp_near_one {a : ℝ} (h0 : a ≤ 0) (h1 : -(1 / 600) ≤ a) :
    jsRound (Real.exp a * 300) = 300 := by
  have hle : Real.exp a ≤ 1 := Real.exp_le_one_iff.mpr h0
  have hge : 1 + a ≤ Real.exp a := by
    have := Real.add_one_le_exp a
    linarith
  have hub : jsRound (Real.exp a * 300) ≤ (300 : ℤ) := jsRound_le_of_le (by push_cast; nlinarith)
  have hlb : (300 : ℤ) ≤ jsRound (Real.exp a * 300) := jsRound_ge (by push_cast; nlinarith)
  omega

/-- **C2** counterexample: two records identical except for their
last-update timestamps (epoch ms 1 versus 0), with `now` = epoch ms 2
after both.  Rounding to two decimals collapses the recency difference,
so both score exactly the same value and the more recent record does
*not* score strictly higher. -/
theorem calculatePopularityScore_recency_tie :
    ({ baseRepo with updated_at := 0 } : GitHubRepository).updated_at <
        ({ baseRepo with updated_at := 1 } : GitHubRepository).updated_at ∧
      ({ baseRepo with updated_at := 1 } : GitHubRepository).updated_at ≤ 2 ∧
      ¬ (calculatePopularityScore defaultWeights { baseRepo with updated_at := 0 } 2 <
          calculatePopularityScore defaultWeights { baseRepo with updated_at := 1 } 2) := by
  refine ⟨by norm_num, by norm_num, ?_⟩
  rw [score_of_zero_stars_forks, score_of_zero_stars_forks]
  rw [jsRound_exp_near_one (by norm_num) (by norm_num),
    jsRound_exp_near_one (by norm_num) (by norm_num)]
  exact lt_irrefl _

/-- **C2** (amended).  For two records identical except for their
last-update timestamp and a fixed `now` after both, the more recently
updated record has a strictly higher weighted score before rounding, and
a greater-or-equal (not always strictly greater, because of the
two-decimal rounding) final popularity score. -/
theorem popularity_recency_monotone (repo : GitHubRepository) (now t1 t2 : ℝ)
    (h12 : t1 < t2) (hnow : t2 ≤ now) :
    popularityRawScore defaultWeights { repo with updated_at := t1 } now <
        popularityRawScore defaultWeights { repo with updated_at := t2 } now ∧
      calculatePopularityScore defaultWeights { repo with updated_at := t1 } now ≤
        calculatePopularityScore defaultWeights { repo with updated_at := t2 } now := by
  have hrec : calculateRecencyScore t1 now < calculateRecencyScore t2 now :=
    calculateRecencyScore_strict_mono now h12
  have hraw : popularityRawScore defaultWeights { repo with updated_at := t1 } now <
      popularityRawScore defaultWeights { repo with updated_at := t2 } now := by
    unfold popularityRawScore defaultWeights
    dsimp only
    nlinarith
  exact ⟨hraw, calcScore_le_of_raw_le hraw.le⟩

/-- Witness for C2 at a concrete input. -/
theorem popularity_recency_monotone_witness :
    (0 : ℝ) < 31536000000 ∧ (31536000000 : ℝ) ≤ 31536000000 ∧
      (popularityRawScore defaultWeights { baseRepo with updated_at := 0 } 31536000000 <
          popularityRawScore defaultWeights { baseRepo with updated_at := 31536000000 }
            31536000000 ∧
        calculatePopularityScore defaultWeights { baseRepo with updated_at := 0 } 31536000000 ≤
          calculatePopularityScore defaultWeights { baseRepo with updated_at := 31536000000 }
            31536000000) :=
  ⟨by norm_num, le_rfl,
    popularity_recency_monotone baseRepo 31536000000 0 31536000000 (by norm_num) le_rfl⟩

/-! ## C3: monotonicity in stars and forks -/

/-- **C3**.  The popularity score is non-strictly monotone in the star
count and in the fork count, all other fields and `now` held fixed. -/
theorem popularity_monotone_stars_forks (repo : GitHubRepository) (now s1 s2 f1 f2 : ℝ)
    (hs0 : 0 ≤ s1) (hs : s1 < s2) (hf0 : 0 ≤ f1) (hf : f1 < f2) :
    calculatePopularityScore defaultWeights { repo with stargazers_count := s1 } now ≤
        calculatePopularityScore defaultWeights { repo with stargazers_count := s2 } now ∧
      calculatePopularityScore defaultWeights { repo with forks_count := f1 } now ≤
        calculatePopularityScore defaultWeights { repo with forks_count := f2 } now := by
  constructor
  · apply calcScore_le_of_raw_le
    have hmono : normalizeStars s1 ≤ normalizeStars s2 := by
      rw [normalizeStars_eq_normalizeLog, normalizeStars_eq_normalizeLog]
      exact normalizeLog_mono 100000 (by norm_num) hs.le
    unfold popularityRawScore defaultWeights
    dsimp only
    nlinarith
  · apply calcScore_le_of_raw_le
    have hmono : normalizeForks f1 ≤ normalizeForks f2 := by
      rw [normalizeForks_eq_normalizeLog, normalizeForks_eq_normalizeLog]
      exact normalizeLog_mono 10000 (by norm_num) hf.le
    unfold popularityRawScore defaultWeights
    dsimp only
    nlinarith

/-- Witness for C3 at a concrete input. -/
theorem popularity_monotone_stars_forks_witness :
    (0 : ℝ) ≤ 0 ∧ (0 : ℝ) < 1 ∧
      (calculatePopularityScore defaultWeights { baseRepo with stargazers_count := 0 } 0 ≤
          calculatePopularityScore defaultWeights { baseRepo with stargazers_count := 1 } 0 ∧
        calculatePopularityScore defaultWeights { baseRepo with forks_count := 0 } 0 ≤
          calculatePopularityScore defaultWeights { baseRepo with forks_count := 1 } 0) :=
  ⟨le_rfl, by norm_num,
    popularity_monotone_stars_forks baseRepo 0 0 1 0 1 le_rfl (by norm_num) le_rfl (by norm_num)⟩

/-! ## C4: the scoring terms match their reference definitions -/

/-- **C4**.  The stars term equals `normalizeLog` with ceiling 100000, the
forks term equals `normalizeLog` with ceiling 10000, and the recency term
equals `exponentialDecay` of the fractional-day difference with the
configured half-life parameter (`recencyDecayDays`, 365 days). -/
theorem scoring_terms_match_reference (s f u now : ℝ) :
    normalizeStars s = normalizeLog s 100000 ∧
      normalizeForks f = normalizeLog f 10000 ∧
      calculateRecencyScore u now = exponentialDecay (daysSince u now) recencyDecayDays ∧
      recencyDecayDays = 365 :=
  ⟨normalizeStars_eq_normalizeLog s, normalizeForks_eq_normalizeLog f,
    calculateRecencyScore_eq_exponentialDecay u now, rfl⟩

/-! ## The popularity sort (`ScoringService.sortByPopularityScore`)

`Array.prototype.sort` with the comparator
`(a, b) => b.popularity_score - a.popularity_score` (resp.
`a.popularity_score - b.popularity_score` for ascending order) is, per
ECMAScript, a stable comparison sort whose order is determined by the sign
of the comparator; it is modelled by the stable `List.insertionSort` on
the relation "the comparator is ≤ 0".  The score type is kept as a
parameter with a linear order, matching the ECMAScript `number` field. -/

/-- The `order` argument of `sortByPopularityScore` (`'asc' | 'desc'`). -/
inductive SortOrder where
  | asc
  | desc
deriving DecidableEq

/-- A scored output record (`RepositoryWithScore` in
`src/types/github.types.ts`).  The license, when present, is the pair of
its name and SPDX identifier. -/
structure RepositoryWithScore (α : Type) where
  id : ℕ
  name : String
  full_name : String
  owner_login : String
  owner_avatar_url : String
  owner_type : String
  description : Option String
  html_url : String
  language : Option String
  created_at : String
  updated_at : String
  stars : ℕ
  forks : ℕ
  open_issues : ℕ
  topics : List String
  license : Option (String × String)
  popularity_score : α
deriving DecidableEq

/-- The order induced by the sort comparator: `scoreRel order a b` holds
when the comparator applied to `(a, b)` is ≤ 0, i.e. when `a` may be
placed before `b`. -/
def scoreRel {α : Type} [LinearOrder α] :
    SortOrder → RepositoryWithScore α → RepositoryWithScore α → Prop
  | SortOrder.desc, a, b => b.popularity_score ≤ a.popularity_score
  | SortOrder.asc, a, b => a.popularity_score ≤ b.popularity_score

instance scoreRelDecidable {α : Type} [LinearOrder α] (order : SortOrder) :
    DecidableRel (@scoreRel α _ order) := fun a b =>
  match order with
  | SortOrder.desc => inferInstanceAs (Decidable (b.popularity_score ≤ a.popularity_score))
  | SortOrder.asc => inferInstanceAs (Decidable (a.popularity_score ≤ b.popularity_score))

instance scoreRelTrans {α : Type} [LinearOrder α] (order : SortOrder) :
    IsTrans (RepositoryWithScore α) (scoreRel order) where
  trans a b c h1 h2 := by
    cases order with
    | desc => exact le_trans h2 h1
    | asc => exact le_trans h1 h2

instance scoreRelTotal {α : Type} [LinearOrder α] (order : SortOrder) :
    IsTotal (RepositoryWithScore α) (scoreRel order) where
  total a b := by
    cases order with
    | desc => exact le_total _ _
    | asc => exact le_total _ _

/-- `ScoringService.sortByPopularityScore`: a stable sort of the records
by popularity score in the requested order (the source defaults the
`order` argument to `'desc'`). -/
def sortByPopularityScore {α : Type} [LinearOrder α]
    (repos : List (RepositoryWithScore α)) (order : SortOrder) :
    List (RepositoryWithScore α) :=
  List.insertionSort (scoreRel order) repos

/-- A scored record with the given identifier and score and blank display
fields, for concrete test inputs. -/
def mkScored (α : Type) (i : ℕ) (score : α) : RepositoryWithScore α :=
  ⟨i, "", "", "", "", "", none, "", none, "", "", 0, 0, 0, [], none, score⟩

/-! ## C8: ordering and stability of the popularity sort -/

/-- **C8**.  The sort output is ordered by popularity score descending for
`'desc'` and ascending for `'asc'`; the sort is stable (any two records
with equal score keep their relative input order); and on the spec's
example scores 4.0, 7.5, 5.5 it returns 7.5, 5.5, 4.0 for `'desc'` and
4.0, 5.5, 7.5 for `'asc'`. -/
theorem sortByPopularityScore_sorted_stable {α : Type} [LinearOrder α]
    (l : List (RepositoryWithScore α)) (order : SortOrder)
    (a b : RepositoryWithScore α)
    (heq : a.popularity_score = b.popularity_score) (hab : [a, b].Sublist l) :
    (sortByPopularityScore l SortOrder.desc).Sorted
        (fun x y => y.popularity_score ≤ x.popularity_score) ∧
      (sortByPopularityScore l SortOrder.asc).Sorted
        (fun x y => x.popularity_score ≤ y.popularity_score) ∧
      [a, b].Sublist (sortByPopularityScore l order) ∧
      sortByPopularityScore
          [mkScored ℚ 1 4, mkScored ℚ 2 7.5, mkScored ℚ 3 5.5] SortOrder.desc =
        [mkScored ℚ 2 7.5, mkScored ℚ 3 5.5, mkScored ℚ 1 4] ∧
      sortByPopularityScore
          [mkScored ℚ 1 4, mkScored ℚ 2 7.5, mkScored ℚ 3 5.5] SortOrder.asc =
        [mkScored ℚ 1 4, mkScored ℚ 3 5.5, mkScored ℚ 2 7.5] := by
  refine ⟨?_, ?_, ?_,
    by norm_num [sortByPopularityScore, List.insertionSort, List.orderedInsert, scoreRel,
      mkScored],
    by norm_num [sortByPopularityScore, List.insertionSort, List.orderedInsert, scoreRel,
      mkScored]⟩
  · exact List.sorted_insertionSort (scoreRel SortOrder.desc) l
  · exact List.sorted_insertionSort (scoreRel SortOrder.asc) l
  · refine List.pair_sublist_insertionSort ?_ hab
    cases order with
    | desc => exact heq.ge
    | asc => exact heq.le

/-- Witness for C8 at a concrete input: two records with equal scores. -/
theorem sortByPopularityScore_sorted_stable_witness :
    (mkScored ℚ 1 4).popularity_score = (mkScored ℚ 2 4).popularity_score ∧
      [mkScored ℚ 1 4, mkScored ℚ 2 4].Sublist [mkScored ℚ 1 4, mkScored ℚ 2 4] ∧
      ([mkScored ℚ 1 4, mkScored ℚ 2 4].Sublist
        (sortByPopularityScore [mkScored ℚ 1 4, mkScored ℚ 2 4] SortOrder.desc)) :=
  ⟨rfl, List.Sublist.refl _,
    (sortByPopularityScore_sorted_stable [mkScored ℚ 1 4, mkScored ℚ 2 4] SortOrder.desc
      (mkScored ℚ 1 4) (mkScored ℚ 2 4) rfl (List.Sublist.refl _)).2.2.1⟩

/-! ## C9: idempotence of the popularity sort -/

/-- **C9**.  Sorting an already-sorted sequence yields the same sequence
(idempotence).  Non-mutation of the argument is inherent in the purely
functional model: the input list is a value and the sort returns a new
list. -/
theorem sortByPopularityScore_idempotent {α : Type} [LinearOrder α]
    (l : List (RepositoryWithScore α)) (order : SortOrder) :
    sortByPopularityScore (sortByPopularityScore l order) order =
      sortByPopularityScore l order := by
  unfold sortByPopularityScore
  exact List.Sorted.insertionSort_eq (List.sorted_insertionSort (scoreRel order) l)

/-! ## C10: the popularity sort permutes its input -/

/-- **C10**.  The sort output is a permutation of the input: same length
and exactly the same elements, only the order changes. -/
theorem sortByPopularityScore_perm {α : Type} [LinearOrder α]
    (l : List (RepositoryWithScore α)) (order : SortOrder) :
    (sortByPopularityScore l order).Perm l ∧
      (sortByPopularityScore l order).length = l.length :=
  ⟨List.perm_insertionSort (scoreRel order) l,
    (List.perm_insertionSort (scoreRel order) l).length_eq⟩

/-! ## The query-string builder (`GitHubService` in `src/services/github.service.ts`) -/

/-- The characters matched by the ECMAScript regular-expression class `\s`
(whitespace), as used by `sanitizeInput`'s allow-set. -/
def jsWhitespaceChars : List Char :=
  [' ', '\t', '\n', '\x0b', '\x0c', '\r', '\xa0', '\u1680', '\u2000', '\u2001',
    '\u2002', '\u2003', '\u2004', '\u2005', '\u2006', '\u2007', '\u2008', '\u2009',
    '\u200a', '\u2028', '\u2029', '\u202f', '\u205f', '\u3000', '\ufeff']

/-- The allow-set of `sanitizeInput`: ASCII letters, ASCII digits,
whitespace, hyphen, underscore, plus, hash, period. -/
def allowedChar (c : Char) : Bool :=
  c.isAlpha || c.isDigit || jsWhitespaceChars.contains c ||
    c = '-' || c = '_' || c = '+' || c = '#' || c = '.'

/-- The global regular-expression replacement: every character outside the
allow-set is deleted, the rest are kept in order. -/
def stripDisallowed : List Char → List Char
  | [] => []
  | c :: cs => if allowedChar c then c :: stripDisallowed cs else stripDisallowed cs

/-- `GitHubService.sanitizeInput`: deletes every character outside the
allow-set (a global regex replacement by the empty string), silently. -/
def sanitizeInput (input : String) : String :=
  String.mk (stripDisallowed input.data)

/-- A calendar date. -/
structure CalendarDate where
  year : ℕ
  month : ℕ
  day : ℕ
deriving DecidableEq

def isLeapYear (y : ℕ) : Bool :=
  y % 4 = 0 && (y % 100 ≠ 0 || y % 400 = 0)

def daysInMonth (y m : ℕ) : ℕ :=
  if m = 2 then (if isLeapYear y then 29 else 28)
  else if m = 4 || m = 6 || m = 9 || m = 11 then 30
  else 31

def digitVal (c : Char) : ℕ := c.toNat - '0'.toNat

/-- Modelled platform behaviour: ECMAScript `new Date(string)` parsing,
restricted to the date-only ISO 8601 form `YYYY-MM-DD` that the service's
error message names as the expected format; any other string is modelled
as unparseable (an Invalid Date, detected by the `isNaN` guard). -/
def parseISODate (s : String) : Option CalendarDate :=
  match s.data with
  | [y1, y2, y3, y4, '-', m1, m2, '-', d1, d2] =>
    if y1.isDigit && y2.isDigit && y3.isDigit && y4.isDigit &&
        m1.isDigit && m2.isDigit && d1.isDigit && d2.isDigit then
      let y := ((digitVal y1 * 10 + digitVal y2) * 10 + digitVal y3) * 10 + digitVal y4
      let m := digitVal m1 * 10 + digitVal m2
      let d := digitVal d1 * 10 + digitVal d2
      if 1 ≤ m && m ≤ 12 && 1 ≤ d && d ≤ daysInMonth y m then some ⟨y, m, d⟩ else none
    else none
  | _ => none

def pad2 (n : ℕ) : String :=
  if n < 10 then "0" ++ toString n else toString n

def pad4 (n : ℕ) : String :=
  if n < 10 then "000" ++ toString n
  else if n < 100 then "00" ++ toString n
  else if n < 1000 then "0" ++ toString n
  else toString n

/-- Modelled platform behaviour:
`date.toISOString().split('T')[0]`, the canonical `YYYY-MM-DD` rendering
of the parsed date. -/
def formatISODate (d : CalendarDate) : String :=
  pad4 d.year ++ "-" ++ pad2 d.month ++ "-" ++ pad2 d.day

/-- `ValidationError` (`src/utils/errors.ts`), identified by its message. -/
structure ValidationError where
  message : String
deriving DecidableEq

/-- An abstract search request (`SearchQuery` in
`src/types/github.types.ts`); absent optional fields are `none`. -/
structure SearchQuery where
  language : Option String
  createdAfter : Option String
  sort : Option String
  order : Option String
  page : Option ℕ
  perPage : Option ℕ

/-- ECMAScript truthiness of an optional string field: `undefined` and the
empty string are falsy. -/
def optStringTruthy : Option String → Bool
  | none => false
  | some s => decide (s ≠ "")

/-- `Array.prototype.join(' ')` on the clause list. -/
def joinSpace : List String → String
  | [] => ""
  | [part] => part
  | part :: parts => part ++ " " ++ joinSpace parts

/-- `GitHubService.buildQueryString`: builds the upstream query string
from the request — a sanitized `language:` clause if a language filter is
set, then a `created:>=` clause if a creation-date floor is set (failing
with a `ValidationError` when the date cannot be parsed), and the default
`stars:>0` clause when no clause was produced. -/
def buildQueryString (query : SearchQuery) : Except ValidationError String :=
  let parts : List String :=
    if optStringTruthy query.language then
      ["language:" ++ sanitizeInput (query.language.getD "")]
    else []
  if optStringTruthy query.createdAfter then
    match parseISODate (query.createdAfter.getD "") with
    | none =>
      Except.error ⟨"Invalid date format for createdAfter. Use ISO 8601 format (YYYY-MM-DD)"⟩
    | some date =>
      let parts := parts ++ ["created:>=" ++ formatISODate date]
      Except.ok (joinSpace (if parts.isEmpty then ["stars:>0"] else parts))
  else
    Except.ok (joinSpace (if parts.isEmpty then ["stars:>0"] else parts))

/-! ## Facts about the query-string builder -/

theorem ne_empty_of_length_pos {s : String} (h : 0 < s.length) : s ≠ "" := by
  intro he
  rw [he] at h
  exact lt_irrefl 0 h

theorem parseISODate_ne_empty {c : String} {d : CalendarDate}
    (h : parseISODate c = some d) : c ≠ "" := by
  intro he
  subst he
  simp [parseISODate] at h

theorem optStringTruthy_some_ne {s : String} (h : s ≠ "") :
    optStringTruthy (some s) = true := by
  simp [optStringTruthy, h]

theorem buildQueryString_ok_ne_empty (q : SearchQuery) (s : String)
    (h : buildQueryString q = Except.ok s) : s ≠ "" := by
  have h9 : (0:ℕ) < "language:".length := by decide
  have h10 : (0:ℕ) < "created:>=".length := by decide
  have hst : (0:ℕ) < "stars:>0".length := by decide
  unfold buildQueryString at h
  by_cases hL : optStringTruthy q.language = true <;>
    by_cases hC : optStringTruthy q.createdAfter = true <;>
      simp only [hL, hC, if_true, if_false, Bool.not_eq_true, if_neg, ite_true,
        ite_false] at h
  · cases hP : parseISODate (q.createdAfter.getD "") with
    | none => rw [hP] at h; exact absurd h (by simp)
    | some date =>
      rw [hP] at h
      simp only [List.cons_append, List.nil_append, List.isEmpty_cons, joinSpace,
        Except.ok.injEq] at h
      subst h
      apply ne_empty_of_length_pos
      simp only [String.length_append]
      omega
  · simp only [List.isEmpty_cons, joinSpace, Except.ok.injEq] at h
    subst h
    apply ne_empty_of_length_pos
    simp only [String.length_append]
    omega
  · cases hP : parseISODate (q.createdAfter.getD "") with
    | none => rw [hP] at h; exact absurd h (by simp)
    | some date =>
      rw [hP] at h
      simp only [List.nil_append, List.isEmpty_cons, joinSpace, Except.ok.injEq] at h
      subst h
      apply ne_empty_of_length_pos
      simp only [String.length_append]
      omega
  · simp only [List.isEmpty_nil, joinSpace, Except.ok.injEq, if_true] at h
    subst h
    exact ne_empty_of_length_pos hst

/-! ## C5: clause structure of the built query string -/

/-- **C5**.  The built query string is the space-join of the produced
clauses in the fixed order (language clause first, then created-date
clause), is exactly the single default clause `stars:>0` when neither
filter produced a clause, and is never empty. -/
theorem buildQueryString_clauses (l c : String) (d : CalendarDate) (q : SearchQuery)
    (hl : l ≠ "") (hc : parseISODate c = some d) :
    buildQueryString ⟨none, none, q.sort, q.order, q.page, q.perPage⟩ =
        Except.ok "stars:>0" ∧
      buildQueryString ⟨some l, none, q.sort, q.order, q.page, q.perPage⟩ =
        Except.ok ("language:" ++ sanitizeInput l) ∧
      buildQueryString ⟨none, some c, q.sort, q.order, q.page, q.perPage⟩ =
        Except.ok ("created:>=" ++ formatISODate d) ∧
      buildQueryString ⟨some l, some c, q.sort, q.order, q.page, q.perPage⟩ =
        Except.ok ("language:" ++ sanitizeInput l ++ " " ++
          ("created:>=" ++ formatISODate d)) ∧
      ∀ (q' : SearchQuery) (s : String), buildQueryString q' = Except.ok s → s ≠ "" := by
  have hcne := parseISODate_ne_empty hc
  refine ⟨rfl, ?_, ?_, ?_, buildQueryString_ok_ne_empty⟩
  · simp [buildQueryString, optStringTruthy, hl, joinSpace]
  · simp [buildQueryString, optStringTruthy, hcne, hc, joinSpace]
  · simp [buildQueryString, optStringTruthy, hl, hcne, hc, joinSpace, String.append_assoc]

/-- Witness for C5 at concrete inputs. -/
theorem buildQueryString_clauses_witness :
    ("typescript" : String) ≠ "" ∧
      parseISODate "2024-01-01" = some ⟨2024, 1, 1⟩ ∧
      buildQueryString ⟨none, none, none, none, none, none⟩ = Except.ok "stars:>0" :=
  ⟨by decide, by decide,
    (buildQueryString_clauses "typescript" "2024-01-01" ⟨2024, 1, 1⟩
      ⟨none, none, none, none, none, none⟩ (by decide) (by decide)).1⟩

/-! ## C6: createdAfter parsing, validation failure, and the date clause -/

/-- **C6**.  A set-but-unparseable `createdAfter` makes `buildQueryString`
fail with the `ValidationError` naming the expected format (the builder is
pure and runs before any upstream request); a parseable `createdAfter`
yields a query ending in the clause `created:>=` followed by the
normalized date; concretely, `"2024-01-01"` gives
`"created:>=2024-01-01"` and `"not-a-date"` fails. -/
theorem buildQueryString_createdAfter (q : SearchQuery) (c : String) (d : CalendarDate) :
    (q.createdAfter = some c → c ≠ "" → parseISODate c = none →
        buildQueryString q = Except.error
          ⟨"Invalid date format for createdAfter. Use ISO 8601 format (YYYY-MM-DD)"⟩) ∧
      (q.createdAfter = some c → parseISODate c = some d →
        ∃ t : String, buildQueryString q =
          Except.ok (t ++ ("created:>=" ++ formatISODate d))) ∧
      buildQueryString ⟨none, some "2024-01-01", none, none, none, none⟩ =
        Except.ok "created:>=2024-01-01" ∧
      buildQueryString ⟨none, some "not-a-date", none, none, none, none⟩ =
        Except.error
          ⟨"Invalid date format for createdAfter. Use ISO 8601 format (YYYY-MM-DD)"⟩ := by
    refine ⟨?_, ?_, by rfl, by rfl⟩
    · intro hq hcne hp
      simp [buildQueryString, hq, optStringTruthy_some_ne hcne, hp]
    · intro hq hp
      have hcne := parseISODate_ne_empty hp
      by_cases hL : optStringTruthy q.language = true
      · refine ⟨"language:" ++ sanitizeInput (q.language.getD "") ++ " ", ?_⟩
        simp [buildQueryString, hq, optStringTruthy_some_ne hcne, hp, hL, joinSpace,
          String.append_assoc]
      · refine ⟨"", ?_⟩
        simp [buildQueryString, hq, optStringTruthy_some_ne hcne, hp, hL, joinSpace]

/-- Witness for C6 at concrete inputs. -/
theorem buildQueryString_createdAfter_witness :
    buildQueryString ⟨none, some "13/01/2024", none, none, none, none⟩ =
        Except.error
          ⟨"Invalid date format for createdAfter. Use ISO 8601 format (YYYY-MM-DD)"⟩ ∧
      ∃ t : String, buildQueryString ⟨none, some "2024-01-01", none, none, none, none⟩ =
        Except.ok (t ++ ("created:>=" ++ formatISODate ⟨2024, 1, 1⟩)) :=
  ⟨(buildQueryString_createdAfter ⟨none, some "13/01/2024", none, none, none, none⟩
      "13/01/2024" ⟨2024, 1, 1⟩).1 rfl (by decide) (by decide),
    (buildQueryString_createdAfter ⟨none, some "2024-01-01", none, none, none, none⟩
      "2024-01-01" ⟨2024, 1, 1⟩).2.1 rfl (by decide)⟩

/-! ## C7: the input sanitizer -/

theorem stripDisallowed_eq_filter (cs : List Char) :
    stripDisallowed cs = cs.filter allowedChar := by
  induction cs with
  | nil => rfl
  | cons c cs ih =>
    cases h : allowedChar c <;> simp [stripDisallowed, List.filter_cons, h, ih]

/-- **C7**.  `sanitizeInput` removes exactly the characters outside the
allow-set (letters, digits, whitespace, hyphen, underscore, plus, hash,
period), keeping the rest in order, silently; the language filter
`"type<script>!"` produces the query clause `"language:typescript"`. -/
theorem sanitizeInput_strips_disallowed (s : String) :
    (sanitizeInput s).data = s.data.filter allowedChar ∧
      (∀ ch ∈ (sanitizeInput s).data, allowedChar ch = true) ∧
      buildQueryString ⟨some "type<script>!", none, none, none, none, none⟩ =
        Except.ok "language:typescript" := by
  have hdata : (sanitizeInput s).data = s.data.filter allowedChar :=
    stripDisallowed_eq_filter s.data
  refine ⟨hdata, ?_, by rfl⟩
  intro ch hch
  rw [hdata] at hch
  exact (List.mem_filter.mp hch).2

/-- Witness for C7 at a concrete input. -/
theorem sanitizeInput_strips_disallowed_witness :
    (sanitizeInput "a-b!").data = "a-b!".data.filter allowedChar ∧
      (∀ ch ∈ (sanitizeInput "a-b!").data, allowedChar ch = true) ∧
      buildQueryString ⟨some "type<script>!", none, none, none, none, none⟩ =
        Except.ok "language:typescript" :=
  sanitizeInput_strips_disallowed "a-b!"

end RedcareGithub
